import Mathlib

/-!
Verification of the response-pane component
(src/packages/insomnia/src/ui/components/panes/response-pane.tsx).

The component is a UI view with three side-effecting user actions
(set filter, copy body, download body) and a three-way render branch
(blank pane, loading placeholder, full pane).  We embed the component
shallowly: each action becomes a pure function from its inputs (the
loader state, the dialog result, the persistence-layer answers) to a
list of observable effects, and rendering becomes a pure function from
the loader state to a render variant carrying the props handed to the
response viewer.  External collaborators (the JSON pretty-printer, the
UTF-8 decoder) are taken as function parameters, since their code is
out of scope; only the call structure of this file is modelled.
-/

namespace ResponsePane

/-- Model of the boolean test used by the JS expression
`sub is an initial segment of l` (helper for substring search). -/
def leadsList : List Char → List Char → Bool
  | [], _ => true
  | _ :: _, [] => false
  | a :: as, b :: bs => if a = b then leadsList as bs else false

/-- Model of substring occurrence: `sub` occurs contiguously in `l`. -/
def subOccurs (sub : List Char) : List Char → Bool
  | [] => leadsList sub []
  | b :: bs => leadsList sub (b :: bs) || subOccurs sub bs

/-- Model of the JS `String.prototype.includes` test used at line 116:
`contentType.includes('json')`. -/
def stringIncludes (s sub : String) : Bool :=
  subOccurs sub.toList s.toList

/-- Request entity: only the fields this component reads. -/
structure Request where
  id : String
  name : String
  deriving DecidableEq

/-- Response entity: only the fields the modelled logic reads.
The `error` field is a string; the JS truthiness tests on it
(lines 178-184) hold exactly when it is non-empty, and a missing
field is modelled as the empty string. -/
structure Response where
  parentId : String
  contentType : String
  error : String
  deriving DecidableEq

/-- Request metadata (per-request UI preferences), as read from the
persistence layer.  Missing string fields are modelled as the empty
string, matching the `|| ''` / `|| PREVIEW_MODE_SOURCE` defaults. -/
structure RequestMeta where
  responseFilter : String
  responseFilterHistory : List String
  previewMode : String
  deriving DecidableEq

/-- The route-loader state the component destructures at line 39. -/
structure PaneState where
  activeRequest : Option Request
  activeRequestMeta : RequestMeta
  activeResponse : Option Response
  deriving DecidableEq

/-- Modelled from the spec: the constant PREVIEW_MODE_SOURCE lives in
src/common/constants, which is not part of the sources; the spec calls
this preview mode "source". -/
def PREVIEW_MODE_SOURCE : String := "source"

/-- Result of the save-file dialog (`window.dialog.showSaveDialog`):
a canceled flag and an optional file path.  The JS code additionally
tests the path for truthiness, so the empty string counts as absent. -/
structure SaveDialogResult where
  canceled : Bool
  filePath : Option String
  deriving DecidableEq

/-- Result of `models.response.getBodyStream`: the persistence layer
may return null, a string, or a readable stream; a stream is modelled
by the list of byte chunks its data events deliver before end. -/
inductive BodyStreamResult where
  | noStream
  | strVal (s : String)
  | stream (chunks : List (List Nat))
  deriving DecidableEq

/-- Observable side effects of the three actions, in program order. -/
inductive Effect where
  | warnNothingToDownload
  | showSaveDialog (title buttonLabel : String)
  | getBodyStream
  | createWriteStream (path : String)
  | writeText (text : String)
  | writeBytes (bytes : List Nat)
  | endWriteStream
  | showError (title message error : String)
  | clipboardWrite (text : String)
  | patchFilter (requestId : String) (filter : String)
  | patchHistory (requestId : String) (history : List String)
  deriving DecidableEq

/-- The history bookkeeping of handleSetFilter, lines 57-62: slice the
re-read history to its first 10 entries, skip an empty or
already-present filter, otherwise unshift the filter at the front.
Returns the list passed to the second patch, or none when skipped. -/
def setFilterHistoryUpdate (stored : List String) (f : String) : Option (List String) :=
  if f = "" ∨ f ∈ stored.take 10 then none
  else some (f :: stored.take 10)

/-- handleSetFilter, lines 47-64.  Inputs: the active response (the
guard at line 48), the submitted filter, and the metadata record the
re-read `models.requestMeta.getByParentId` returns (the persistence
layer is external, so its answer is an input).  Output: the patch
effects issued, in order. -/
def handleSetFilter (activeResponse : Option Response) (responseFilter : String)
    (metaLookup : Option RequestMeta) : List Effect :=
  match activeResponse with
  | none => []
  | some resp =>
    Effect.patchFilter resp.parentId responseFilter ::
      match metaLookup with
      | none => []
      | some meta =>
        match setFilterHistoryUpdate meta.responseFilterHistory responseFilter with
        | none => []
        | some h => [Effect.patchHistory resp.parentId h]

/-- handleGetResponseBody, lines 65-70: null without an active
response, otherwise whatever buffer `models.response.getBodyBuffer`
returns (an input, since the persistence layer is external). -/
def handleGetResponseBody (activeResponse : Option Response)
    (bodyBuffer : Option (List Nat)) : Option (List Nat) :=
  match activeResponse with
  | none => none
  | some _ => bodyBuffer

/-- handleCopyResponseToClipboard, lines 71-76: write the UTF-8
decoding of the body buffer to the clipboard when the buffer is
present, otherwise do nothing. -/
def handleCopyResponseToClipboard (utf8Decode : List Nat → String)
    (activeResponse : Option Response) (bodyBuffer : Option (List Nat)) : List Effect :=
  match handleGetResponseBody activeResponse bodyBuffer with
  | none => []
  | some b => [Effect.clipboardWrite (utf8Decode b)]

/-- handleDownloadResponseBody, lines 80-125.  Inputs: the external
pretty-printer and UTF-8 decoder, the loader state, the prettify flag,
the dialog answer, the body-stream answer, and whether the write
stream raises an error.  Output: the effects in observed order (the
error event of the write stream is modelled as observed after the
write calls it follows). -/
def handleDownloadResponseBody (jsonPrettify : String → String)
    (utf8Decode : List Nat → String)
    (activeRequest : Option Request) (activeResponse : Option Response)
    (prettify : Bool) (dialog : SaveDialogResult)
    (body : BodyStreamResult) (writeError : Option String) : List Effect :=
  match activeResponse, activeRequest with
  | some resp, some _ =>
    Effect.showSaveDialog "Save Response Body" "Save" ::
      if dialog.canceled then []
      else
        Effect.getBodyStream ::
          match body, dialog.filePath with
          | BodyStreamResult.stream chunks, some outputPath =>
            if outputPath = "" then []
            else
              let finalBuffer := chunks.flatten
              [Effect.createWriteStream outputPath,
               if prettify && stringIncludes resp.contentType "json" then
                 Effect.writeText (jsonPrettify (utf8Decode finalBuffer))
               else
                 Effect.writeBytes finalBuffer,
               Effect.endWriteStream] ++
                match writeError with
                | some e => [Effect.showError "Save Failed" "Failed to save response body" e]
                | none => []
          | _, _ => []
  | _, _ => [Effect.warnNothingToDownload]

/-- Props handed to the response viewer (lines 170-186), restricted to
the fields the claims are about plus the filter data. -/
structure ResponseViewerProps where
  contentType : String
  error : String
  filter : String
  filterHistory : List String
  previewMode : String
  hasUpdateFilter : Bool
  deriving DecidableEq

/-- The three mutually exclusive render variants of the component:
blank pane (no request, line 128), loading placeholder (no prior
response, lines 132-142), or the full pane with its viewer props. -/
inductive Render where
  | blank
  | placeholder
  | full (viewer : ResponseViewerProps)
  deriving DecidableEq

/-- The placeholder variants are the two non-full renders: the blank
pane and the loading placeholder. -/
def Render.isPlaceholderVariant : Render → Bool
  | Render.full _ => false
  | _ => true

/-- The render branch of the component (lines 127-186): blank without
a request, placeholder without a response, otherwise the full pane;
the viewer receives preview mode source and no filter callback when
the response error is non-empty (truthy). -/
def renderPane (st : PaneState) : Render :=
  match st.activeRequest with
  | none => Render.blank
  | some _ =>
    match st.activeResponse with
    | none => Render.placeholder
    | some resp =>
      let storedPreviewMode :=
        if st.activeRequestMeta.previewMode = "" then PREVIEW_MODE_SOURCE
        else st.activeRequestMeta.previewMode
      Render.full
        { contentType := resp.contentType
          error := resp.error
          filter := st.activeRequestMeta.responseFilter
          filterHistory := st.activeRequestMeta.responseFilterHistory
          previewMode := if resp.error = "" then storedPreviewMode else PREVIEW_MODE_SOURCE
          hasUpdateFilter := decide (resp.error = "") }

/-- File-write related effects: creating the write stream, the two
write calls, and closing the stream. -/
def Effect.isFileWrite : Effect → Bool
  | Effect.createWriteStream _ => true
  | Effect.writeText _ => true
  | Effect.writeBytes _ => true
  | Effect.endWriteStream => true
  | _ => false

/-- The two body-write calls (`to.write`). -/
def Effect.isBodyWrite : Effect → Bool
  | Effect.writeText _ => true
  | Effect.writeBytes _ => true
  | _ => false

/-- Error-dialog effects. -/
def Effect.isErrorDialog : Effect → Bool
  | Effect.showError _ _ _ => true
  | _ => false

/-- Characterisation of the history patches issued by handleSetFilter:
a patchHistory effect occurs exactly when a response is active, the
metadata re-read succeeds, and the history bookkeeping produces a new
list; the patch targets the response parent id with that list. -/
theorem mem_patchHistory_handleSetFilter (ar : Option Response) (f : String)
    (ml : Option RequestMeta) (rid : String) (h : List String) :
    Effect.patchHistory rid h ∈ handleSetFilter ar f ml ↔
      ∃ resp m, ar = some resp ∧ ml = some m ∧ rid = resp.parentId ∧
        setFilterHistoryUpdate m.responseFilterHistory f = some h := by
  cases ar with
  | none => simp [handleSetFilter]
  | some resp =>
    cases ml with
    | none => simp [handleSetFilter]
    | some m =>
      cases hu : setFilterHistoryUpdate m.responseFilterHistory f with
      | none => simp [handleSetFilter, hu]
      | some h0 =>
        simp only [handleSetFilter, hu, List.mem_cons, List.not_mem_nil, or_false]
        constructor
        · rintro (he | he)
          · exact absurd he (by simp)
          · obtain ⟨h1, h2⟩ := Effect.patchHistory.inj he
            exact ⟨resp, m, rfl, rfl, h1, by rw [h2]; exact hu⟩
        · rintro ⟨resp2, m2, he1, he2, hrid, hup⟩
          obtain rfl := Option.some.inj he1
          obtain rfl := Option.some.inj he2
          rw [hup] at hu
          obtain rfl := Option.some.inj hu
          subst hrid
          simp

/-- Any list produced by the history bookkeeping has at most 11
entries: it is one new entry in front of at most 10 retained ones. -/
theorem setFilterHistoryUpdate_length_le (stored : List String) (f : String)
    (h : List String) (hu : setFilterHistoryUpdate stored f = some h) :
    h.length ≤ 11 := by
  unfold setFilterHistoryUpdate at hu
  split at hu
  · exact absurd hu (by simp)
  · obtain rfl := Option.some.inj hu
    simp only [List.length_cons, List.length_take]
    omega

/-- C1 (amended): every filter history list persisted by
handleSetFilter has at most 11 entries (not 10: the code slices the
stored history to 10 entries first and then unshifts the new filter,
so the persisted list can reach 11). -/
theorem setFilter_history_length_le_eleven (ar : Option Response) (f : String)
    (ml : Option RequestMeta) (rid : String) (h : List String)
    (hmem : Effect.patchHistory rid h ∈ handleSetFilter ar f ml) :
    h.length ≤ 11 := by
  obtain ⟨resp, m, _, _, _, hu⟩ := (mem_patchHistory_handleSetFilter ar f ml rid h).mp hmem
  exact setFilterHistoryUpdate_length_le m.responseFilterHistory f h hu

/-- Witness for C1 (amended) at a concrete input. -/
theorem setFilter_history_length_le_eleven_witness :
    Effect.patchHistory "req1" ["k"] ∈
      handleSetFilter (some { parentId := "req1", contentType := "", error := "" }) "k"
        (some { responseFilter := "k", responseFilterHistory := [], previewMode := "" }) ∧
    (["k"] : List String).length ≤ 11 :=
  ⟨by decide,
   setFilter_history_length_le_eleven
     (some { parentId := "req1", contentType := "", error := "" }) "k"
     (some { responseFilter := "k", responseFilterHistory := [], previewMode := "" })
     "req1" ["k"] (by decide)⟩

/-- C1 counterexample: with a stored history of 10 entries and a fresh
filter, the action persists an 11-entry list, refuting the claim that
the persisted history has at most 10 entries. -/
theorem setFilter_persists_eleven_entries :
    handleSetFilter (some { parentId := "req1", contentType := "", error := "" }) "k"
        (some { responseFilter := "k",
                responseFilterHistory := ["a", "b", "c", "d", "e", "f", "g", "h", "i", "j"],
                previewMode := "" }) =
      [Effect.patchFilter "req1" "k",
       Effect.patchHistory "req1"
         ["k", "a", "b", "c", "d", "e", "f", "g", "h", "i", "j"]] ∧
    ¬ (["k", "a", "b", "c", "d", "e", "f", "g", "h", "i", "j"] : List String).length ≤ 10 :=
  ⟨by decide, by decide⟩

/-- C4 (confirmed): starting from a stored history with no
duplicates, no empty entries, and at most 10 entries, every history
list persisted by handleSetFilter again has no duplicates and no empty
entries, and an empty or already-present filter causes no history
patch at all. -/
theorem setFilter_preserves_history_invariants (resp : Response) (f : String)
    (m : RequestMeta) (hnd : m.responseFilterHistory.Nodup)
    (hne : "" ∉ m.responseFilterHistory)
    (hlen : m.responseFilterHistory.length ≤ 10) :
    (∀ rid h, Effect.patchHistory rid h ∈ handleSetFilter (some resp) f (some m) →
        h.Nodup ∧ "" ∉ h) ∧
    ((f = "" ∨ f ∈ m.responseFilterHistory) →
      ∀ rid h, Effect.patchHistory rid h ∉ handleSetFilter (some resp) f (some m)) := by
  have htake : m.responseFilterHistory.take 10 = m.responseFilterHistory :=
    List.take_of_length_le hlen
  constructor
  · intro rid h hmem
    obtain ⟨resp2, m2, he1, he2, _, hu⟩ :=
      (mem_patchHistory_handleSetFilter (some resp) f (some m) rid h).mp hmem
    obtain rfl := Option.some.inj he1
    obtain rfl := Option.some.inj he2
    unfold setFilterHistoryUpdate at hu
    split at hu
    · exact absurd hu (by simp)
    · rename_i hcond
      obtain rfl := Option.some.inj hu
      rw [htake] at hcond ⊢
      push_neg at hcond
      refine ⟨List.nodup_cons.mpr ⟨hcond.2, hnd⟩, ?_⟩
      intro hmem2
      rcases List.mem_cons.mp hmem2 with hc | hc
      · exact hcond.1 hc.symm
      · exact hne hc
  · intro hcond rid h hmem
    obtain ⟨resp2, m2, _, he2, _, hu⟩ :=
      (mem_patchHistory_handleSetFilter (some resp) f (some m) rid h).mp hmem
    obtain rfl := Option.some.inj he2
    unfold setFilterHistoryUpdate at hu
    rw [htake, if_pos hcond] at hu
    exact absurd hu (by simp)

/-- Witness for C4 at a concrete input. -/
theorem setFilter_preserves_history_invariants_witness :
    (["old"] : List String).Nodup ∧ "" ∉ (["old"] : List String) ∧
      (["old"] : List String).length ≤ 10 ∧
    ((∀ rid h, Effect.patchHistory rid h ∈
          handleSetFilter (some { parentId := "req1", contentType := "", error := "" }) "new"
            (some { responseFilter := "new", responseFilterHistory := ["old"],
                    previewMode := "" }) →
        h.Nodup ∧ "" ∉ h) ∧
     (("new" = "" ∨ "new" ∈ (["old"] : List String)) →
       ∀ rid h, Effect.patchHistory rid h ∉
         handleSetFilter (some { parentId := "req1", contentType := "", error := "" }) "new"
           (some { responseFilter := "new", responseFilterHistory := ["old"],
                   previewMode := "" }))) :=
  ⟨by decide, by decide, by decide,
   setFilter_preserves_history_invariants
     { parentId := "req1", contentType := "", error := "" } "new"
     { responseFilter := "new", responseFilterHistory := ["old"], previewMode := "" }
     (by decide) (by decide) (by decide)⟩

/-- C9 (amended): a non-empty filter absent from the stored history is
unshifted at the front, followed by the first 10 prior entries in
order (the prior entries beyond the tenth are dropped, so "followed by
the prior entries" holds only up to that truncation). -/
theorem setFilter_unshifts_new_filter (resp : Response) (f : String) (m : RequestMeta)
    (hne : f ≠ "") (hnm : f ∉ m.responseFilterHistory) :
    handleSetFilter (some resp) f (some m) =
      [Effect.patchFilter resp.parentId f,
       Effect.patchHistory resp.parentId (f :: m.responseFilterHistory.take 10)] := by
  have hnt : f ∉ m.responseFilterHistory.take 10 := fun hx => hnm (List.mem_of_mem_take hx)
  simp [handleSetFilter, setFilterHistoryUpdate, hne, hnt]

/-- Witness for C9 (amended) at a concrete input. -/
theorem setFilter_unshifts_new_filter_witness :
    ("new" : String) ≠ "" ∧ "new" ∉ (["old"] : List String) ∧
    handleSetFilter (some { parentId := "req1", contentType := "", error := "" }) "new"
        (some { responseFilter := "new", responseFilterHistory := ["old"],
                previewMode := "" }) =
      [Effect.patchFilter "req1" "new", Effect.patchHistory "req1" ["new", "old"]] :=
  ⟨by decide, by decide,
   setFilter_unshifts_new_filter { parentId := "req1", contentType := "", error := "" }
     "new" { responseFilter := "new", responseFilterHistory := ["old"], previewMode := "" }
     (by decide) (by decide)⟩

/-- C9 counterexample: with 11 stored entries and a fresh non-empty
filter, the persisted list is the filter followed by only the first 10
prior entries, not by all prior entries in order. -/
theorem setFilter_truncates_prior_entries :
    handleSetFilter (some { parentId := "req1", contentType := "", error := "" }) "x"
        (some { responseFilter := "x",
                responseFilterHistory :=
                  ["e1", "e2", "e3", "e4", "e5", "e6", "e7", "e8", "e9", "e10", "e11"],
                previewMode := "" }) =
      [Effect.patchFilter "req1" "x",
       Effect.patchHistory "req1"
         ["x", "e1", "e2", "e3", "e4", "e5", "e6", "e7", "e8", "e9", "e10"]] ∧
    (["x", "e1", "e2", "e3", "e4", "e5", "e6", "e7", "e8", "e9", "e10"] : List String) ≠
      "x" :: ["e1", "e2", "e3", "e4", "e5", "e6", "e7", "e8", "e9", "e10", "e11"] :=
  ⟨by decide, by decide⟩

/-- C10 (confirmed): with an active response the action always issues
the filter patch first, even for an empty or duplicate filter; the
history patch is skipped exactly when the metadata re-read returns
nothing, the filter is empty, or the filter is already among the first
10 re-read entries, and otherwise the unshifted list is patched. -/
theorem setFilter_always_persists_filter (resp : Response) (f : String)
    (ml : Option RequestMeta) :
    (handleSetFilter (some resp) f ml).head? =
      some (Effect.patchFilter resp.parentId f) ∧
    (ml = none →
      ∀ rid h, Effect.patchHistory rid h ∉ handleSetFilter (some resp) f ml) ∧
    (∀ m, ml = some m → (f = "" ∨ f ∈ m.responseFilterHistory.take 10) →
      ∀ rid h, Effect.patchHistory rid h ∉ handleSetFilter (some resp) f ml) ∧
    (∀ m, ml = some m → f ≠ "" → f ∉ m.responseFilterHistory.take 10 →
      Effect.patchHistory resp.parentId (f :: m.responseFilterHistory.take 10) ∈
        handleSetFilter (some resp) f ml) := by
  refine ⟨?_, ?_, ?_, ?_⟩
  · cases ml <;> simp [handleSetFilter]
  · rintro rfl rid h hmem
    simp [handleSetFilter] at hmem
  · rintro m rfl hcond rid h hmem
    obtain ⟨resp2, m2, _, he2, _, hu⟩ :=
      (mem_patchHistory_handleSetFilter (some resp) f (some m) rid h).mp hmem
    obtain rfl := Option.some.inj he2
    unfold setFilterHistoryUpdate at hu
    rw [if_pos hcond] at hu
    exact absurd hu (by simp)
  · rintro m rfl hne hnt
    refine (mem_patchHistory_handleSetFilter (some resp) f (some m)
      resp.parentId (f :: m.responseFilterHistory.take 10)).mpr
      ⟨resp, m, rfl, rfl, rfl, ?_⟩
    simp [setFilterHistoryUpdate, hne, hnt]

/-- Witness for C10 at a concrete input. -/
theorem setFilter_always_persists_filter_witness :
    (handleSetFilter (some { parentId := "req1", contentType := "", error := "" }) ""
        (some { responseFilter := "", responseFilterHistory := ["old"],
                previewMode := "" })).head? =
      some (Effect.patchFilter "req1" "") ∧
    ∀ rid h, Effect.patchHistory rid h ∉
      handleSetFilter (some { parentId := "req1", contentType := "", error := "" }) ""
        (some { responseFilter := "", responseFilterHistory := ["old"],
                previewMode := "" }) :=
  ⟨(setFilter_always_persists_filter
      { parentId := "req1", contentType := "", error := "" } ""
      (some { responseFilter := "", responseFilterHistory := ["old"],
              previewMode := "" })).1,
   (setFilter_always_persists_filter
      { parentId := "req1", contentType := "", error := "" } ""
      (some { responseFilter := "", responseFilterHistory := ["old"],
              previewMode := "" })).2.2.1
     { responseFilter := "", responseFilterHistory := ["old"], previewMode := "" }
     rfl (by decide)⟩

/-- C2 (confirmed): on the happy path (active request and response,
dialog confirmed with a usable path, a real body stream), the single
body write is the pretty-printed UTF-8 text when prettify is set and
the content type contains "json", and the unchanged concatenated raw
bytes otherwise. -/
theorem download_writes_pretty_or_raw (jsonPrettify : String → String)
    (utf8Decode : List Nat → String) (req : Request) (resp : Response)
    (prettify : Bool) (p : String) (chunks : List (List Nat))
    (writeError : Option String) (hp : p ≠ "") :
    ((prettify = true ∧ stringIncludes resp.contentType "json" = true) →
      (handleDownloadResponseBody jsonPrettify utf8Decode (some req) (some resp) prettify
          { canceled := false, filePath := some p }
          (BodyStreamResult.stream chunks) writeError).filter Effect.isBodyWrite =
        [Effect.writeText (jsonPrettify (utf8Decode chunks.flatten))]) ∧
    ((prettify = false ∨ stringIncludes resp.contentType "json" = false) →
      (handleDownloadResponseBody jsonPrettify utf8Decode (some req) (some resp) prettify
          { canceled := false, filePath := some p }
          (BodyStreamResult.stream chunks) writeError).filter Effect.isBodyWrite =
        [Effect.writeBytes chunks.flatten]) := by
  constructor
  · rintro ⟨h1, h2⟩
    cases writeError <;>
      simp [handleDownloadResponseBody, hp, h1, h2, Effect.isBodyWrite]
  · intro hcase
    have hcond : (prettify && stringIncludes resp.contentType "json") = false := by
      rcases hcase with hc | hc <;> simp [hc]
    cases writeError <;>
      simp [handleDownloadResponseBody, hp, hcond, Effect.isBodyWrite]

/-- Witness for C2 at a concrete input, exercising both branches. -/
theorem download_writes_pretty_or_raw_witness :
    ("out.json" : String) ≠ "" ∧
    (handleDownloadResponseBody (fun s => String.append "pretty:" s) (fun _ => "body")
        (some { id := "r", name := "n" })
        (some { parentId := "r", contentType := "application/json", error := "" }) true
        { canceled := false, filePath := some "out.json" }
        (BodyStreamResult.stream [[1], [2]]) none).filter Effect.isBodyWrite =
      [Effect.writeText "pretty:body"] :=
  ⟨by decide,
   (download_writes_pretty_or_raw (fun s => String.append "pretty:" s) (fun _ => "body")
      { id := "r", name := "n" }
      { parentId := "r", contentType := "application/json", error := "" } true
      "out.json" [[1], [2]] none (by decide)).1 ⟨rfl, by decide⟩⟩

/-- C3 (confirmed): whenever the full pane is rendered for a response
whose error field is non-empty, the viewer receives preview mode
source regardless of the stored preference and no filter-update
callback. -/
theorem error_forces_source_preview (st : PaneState) (p : ResponseViewerProps)
    (resp : Response) (hr : st.activeResponse = some resp) (he : resp.error ≠ "")
    (hfull : renderPane st = Render.full p) :
    p.previewMode = PREVIEW_MODE_SOURCE ∧ p.hasUpdateFilter = false := by
  obtain ⟨req, meta, aresp⟩ := st
  cases req with
  | none => exact absurd hfull (by simp [renderPane])
  | some r =>
    cases aresp with
    | none => exact absurd hfull (by simp [renderPane])
    | some resp2 =>
      obtain rfl := Option.some.inj hr
      rw [renderPane] at hfull
      simp only [he, if_neg he] at hfull
      obtain rfl := Render.full.inj hfull
      simp [he]

/-- Witness for C3 at a concrete input with a stored non-source
preview preference. -/
theorem error_forces_source_preview_witness :
    ({ activeRequest := some { id := "r", name := "n" },
       activeRequestMeta := { responseFilter := "flt", responseFilterHistory := ["h1"],
                              previewMode := "friendly" },
       activeResponse := some { parentId := "r", contentType := "ct", error := "boom" } }
        : PaneState).activeResponse =
      some { parentId := "r", contentType := "ct", error := "boom" } ∧
    ({ parentId := "r", contentType := "ct", error := "boom" } : Response).error ≠ "" ∧
    renderPane
        { activeRequest := some { id := "r", name := "n" },
          activeRequestMeta := { responseFilter := "flt", responseFilterHistory := ["h1"],
                                 previewMode := "friendly" },
          activeResponse := some { parentId := "r", contentType := "ct", error := "boom" } } =
      Render.full { contentType := "ct", error := "boom", filter := "flt",
                    filterHistory := ["h1"], previewMode := PREVIEW_MODE_SOURCE,
                    hasUpdateFilter := false } ∧
    ({ contentType := "ct", error := "boom", filter := "flt", filterHistory := ["h1"],
       previewMode := PREVIEW_MODE_SOURCE,
       hasUpdateFilter := false } : ResponseViewerProps).previewMode =
        PREVIEW_MODE_SOURCE ∧
    ({ contentType := "ct", error := "boom", filter := "flt", filterHistory := ["h1"],
       previewMode := PREVIEW_MODE_SOURCE,
       hasUpdateFilter := false } : ResponseViewerProps).hasUpdateFilter = false :=
  ⟨rfl, by decide, by decide,
   error_forces_source_preview
     { activeRequest := some { id := "r", name := "n" },
       activeRequestMeta := { responseFilter := "flt", responseFilterHistory := ["h1"],
                              previewMode := "friendly" },
       activeResponse := some { parentId := "r", contentType := "ct", error := "boom" } }
     { contentType := "ct", error := "boom", filter := "flt", filterHistory := ["h1"],
       previewMode := PREVIEW_MODE_SOURCE, hasUpdateFilter := false }
     { parentId := "r", contentType := "ct", error := "boom" }
     rfl (by decide) (by decide)⟩

/-- C5 (confirmed): without an active response the pane renders a
placeholder variant (the loading placeholder when a request is active,
the blank pane otherwise), the download action only warns (no dialog,
no body read, no write), and the copy action writes nothing to the
clipboard. -/
theorem no_response_placeholder_and_noops (st : PaneState)
    (jsonPrettify : String → String) (utf8Decode : List Nat → String)
    (prettify : Bool) (dialog : SaveDialogResult) (body : BodyStreamResult)
    (writeError : Option String) (bodyBuffer : Option (List Nat))
    (h : st.activeResponse = none) :
    (renderPane st).isPlaceholderVariant = true ∧
    (∀ r, st.activeRequest = some r → renderPane st = Render.placeholder) ∧
    handleDownloadResponseBody jsonPrettify utf8Decode st.activeRequest st.activeResponse
        prettify dialog body writeError = [Effect.warnNothingToDownload] ∧
    handleCopyResponseToClipboard utf8Decode st.activeResponse bodyBuffer = [] := by
  obtain ⟨req, meta, aresp⟩ := st
  simp only at h
  subst h
  cases req with
  | none =>
    refine ⟨rfl, ?_, rfl, rfl⟩
    intro r hr
    exact absurd hr (by simp)
  | some r => exact ⟨rfl, fun _ _ => rfl, rfl, rfl⟩

/-- Witness for C5 at a concrete input. -/
theorem no_response_placeholder_and_noops_witness :
    ({ activeRequest := some { id := "r", name := "n" },
       activeRequestMeta := { responseFilter := "", responseFilterHistory := [],
                              previewMode := "" },
       activeResponse := none } : PaneState).activeResponse = none ∧
    ((renderPane
        { activeRequest := some { id := "r", name := "n" },
          activeRequestMeta := { responseFilter := "", responseFilterHistory := [],
                                 previewMode := "" },
          activeResponse := none }).isPlaceholderVariant = true ∧
     (∀ r, ({ activeRequest := some { id := "r", name := "n" },
              activeRequestMeta := { responseFilter := "", responseFilterHistory := [],
                                     previewMode := "" },
              activeResponse := none } : PaneState).activeRequest = some r →
        renderPane
          { activeRequest := some { id := "r", name := "n" },
            activeRequestMeta := { responseFilter := "", responseFilterHistory := [],
                                   previewMode := "" },
            activeResponse := none } = Render.placeholder) ∧
     handleDownloadResponseBody (fun s => s) (fun _ => "") (some { id := "r", name := "n" })
         none true { canceled := false, filePath := some "out" }
         (BodyStreamResult.stream [[1]]) none = [Effect.warnNothingToDownload] ∧
     handleCopyResponseToClipboard (fun _ => "") none (some [1, 2]) = []) :=
  ⟨rfl,
   no_response_placeholder_and_noops
     { activeRequest := some { id := "r", name := "n" },
       activeRequestMeta := { responseFilter := "", responseFilterHistory := [],
                              previewMode := "" },
       activeResponse := none }
     (fun s => s) (fun _ => "") true { canceled := false, filePath := some "out" }
     (BodyStreamResult.stream [[1]]) none (some [1, 2]) rfl⟩

/-- C6 (confirmed): when the save dialog is canceled, the download
action performs no file-write effect at all (no write stream is
created and nothing is written). -/
theorem cancel_dialog_no_write (jsonPrettify : String → String)
    (utf8Decode : List Nat → String) (ar : Option Request) (aresp : Option Response)
    (prettify : Bool) (dialog : SaveDialogResult) (body : BodyStreamResult)
    (writeError : Option String) (h : dialog.canceled = true) :
    ∀ e ∈ handleDownloadResponseBody jsonPrettify utf8Decode ar aresp prettify dialog
        body writeError, e.isFileWrite = false := by
  intro e he
  cases aresp with
  | none =>
    simp [handleDownloadResponseBody] at he
    simp [he, Effect.isFileWrite]
  | some resp =>
    cases ar with
    | none =>
      simp [handleDownloadResponseBody] at he
      simp [he, Effect.isFileWrite]
    | some r =>
      simp [handleDownloadResponseBody, h] at he
      simp [he, Effect.isFileWrite]

/-- Witness for C6 at a concrete input. -/
theorem cancel_dialog_no_write_witness :
    ({ canceled := true, filePath := some "out" } : SaveDialogResult).canceled = true ∧
    ∀ e ∈ handleDownloadResponseBody (fun s => s) (fun _ => "")
        (some { id := "r", name := "n" })
        (some { parentId := "r", contentType := "application/json", error := "" }) true
        { canceled := true, filePath := some "out" }
        (BodyStreamResult.stream [[1]]) none, e.isFileWrite = false :=
  ⟨rfl,
   cancel_dialog_no_write (fun s => s) (fun _ => "") (some { id := "r", name := "n" })
     (some { parentId := "r", contentType := "application/json", error := "" }) true
     { canceled := true, filePath := some "out" } (BodyStreamResult.stream [[1]]) none rfl⟩

/-- C7 (confirmed): when the write stream raises an error on the happy
download path, the action shows the modal error dialog with the fixed
title "Save Failed", the fixed message "Failed to save response body",
and the underlying error. -/
theorem write_error_shows_error_dialog (jsonPrettify : String → String)
    (utf8Decode : List Nat → String) (req : Request) (resp : Response)
    (prettify : Bool) (p : String) (chunks : List (List Nat)) (e : String)
    (hp : p ≠ "") :
    Effect.showError "Save Failed" "Failed to save response body" e ∈
      handleDownloadResponseBody jsonPrettify utf8Decode (some req) (some resp) prettify
        { canceled := false, filePath := some p }
        (BodyStreamResult.stream chunks) (some e) := by
  simp [handleDownloadResponseBody, hp]

/-- Witness for C7 at a concrete input. -/
theorem write_error_shows_error_dialog_witness :
    ("out" : String) ≠ "" ∧
    Effect.showError "Save Failed" "Failed to save response body" "disk full" ∈
      handleDownloadResponseBody (fun s => s) (fun _ => "")
        (some { id := "r", name := "n" })
        (some { parentId := "r", contentType := "text/plain", error := "" }) false
        { canceled := false, filePath := some "out" }
        (BodyStreamResult.stream [[1]]) (some "disk full") :=
  ⟨by decide,
   write_error_shows_error_dialog (fun s => s) (fun _ => "") { id := "r", name := "n" }
     { parentId := "r", contentType := "text/plain", error := "" } false "out" [[1]]
     "disk full" (by decide)⟩

/-- C8 (confirmed): when the persistence layer returns no body stream,
or returns a string instead of a stream, the download performs no
file-write effect and shows no error dialog. -/
theorem missing_stream_silent_noop (jsonPrettify : String → String)
    (utf8Decode : List Nat → String) (ar : Option Request) (aresp : Option Response)
    (prettify : Bool) (dialog : SaveDialogResult) (body : BodyStreamResult)
    (writeError : Option String)
    (hbody : body = BodyStreamResult.noStream ∨ ∃ s, body = BodyStreamResult.strVal s) :
    ∀ e ∈ handleDownloadResponseBody jsonPrettify utf8Decode ar aresp prettify dialog
        body writeError, e.isFileWrite = false ∧ e.isErrorDialog = false := by
  intro e he
  cases aresp with
  | none =>
    simp [handleDownloadResponseBody] at he
    simp [he, Effect.isFileWrite, Effect.isErrorDialog]
  | some resp =>
    cases ar with
    | none =>
      simp [handleDownloadResponseBody] at he
      simp [he, Effect.isFileWrite, Effect.isErrorDialog]
    | some r =>
      cases hc : dialog.canceled with
      | true =>
        simp [handleDownloadResponseBody, hc] at he
        simp [he, Effect.isFileWrite, Effect.isErrorDialog]
      | false =>
        rcases hbody with rfl | ⟨s, rfl⟩ <;>
          simp [handleDownloadResponseBody, hc] at he <;>
          rcases he with rfl | rfl <;>
          simp [Effect.isFileWrite, Effect.isErrorDialog]

/-- Witness for C8 at a concrete input. -/
theorem missing_stream_silent_noop_witness :
    ((BodyStreamResult.strVal "raw" = BodyStreamResult.noStream ∨
        ∃ s, BodyStreamResult.strVal "raw" = BodyStreamResult.strVal s)) ∧
    ∀ e ∈ handleDownloadResponseBody (fun s => s) (fun _ => "")
        (some { id := "r", name := "n" })
        (some { parentId := "r", contentType := "application/json", error := "" }) true
        { canceled := false, filePath := some "out" } (BodyStreamResult.strVal "raw") none,
      e.isFileWrite = false ∧ e.isErrorDialog = false :=
  ⟨Or.inr ⟨"raw", rfl⟩,
   missing_stream_silent_noop (fun s => s) (fun _ => "") (some { id := "r", name := "n" })
     (some { parentId := "r", contentType := "application/json", error := "" }) true
     { canceled := false, filePath := some "out" } (BodyStreamResult.strVal "raw") none
     (Or.inr ⟨"raw", rfl⟩)⟩

end ResponsePane
